import Mathlib

/-!
Shallow embedding of the web-scraper application (`src/app.py`).

The application exposes two routes:
  * `POST /scrape` (`scrape_website`): fetches a page, archives its external
    CSS and JS assets under `static/css` / `static/js`, rejects URLs that are
    already stored, and otherwise inserts a record into the MongoDB
    collection and redirects (303) to `/render/{id}`.
  * `GET /render?template_id=...` (`render_template`): looks a record up by
    its ObjectId, with 400 for a malformed identifier and 404 for a missing
    record.

The embedding below models the pipeline as pure functions:
  * HTTP fetching (`requests.get` + `raise_for_status`) is an oracle
    `Fetch : String → FetchResult`, returning the body text on success and an
    error message on any network error or non-success status.
  * HTML parsing (`BeautifulSoup`) is an oracle `parse : String → Doc`,
    where a `Doc` is the document-order sequence of element tags with their
    attributes — the view `soup.find_all` iterates over.  `soup.prettify()`
    is modelled as a serialization that renders every tag with its attribute
    values verbatim (BeautifulSoup pretty-printing reformats whitespace but
    never rewrites attribute values).
  * The filesystem is a chronological write log `FS`; `open(...,"w")` +
    `write` appends a `(path, content)` entry (a later write to the same
    path shadows earlier ones).
  * The MongoDB collection is a list of `(id, record)` pairs plus a counter
    for minting fresh ObjectIds.
-/

namespace WebScraper

/-! ### URL resolver (`urllib.parse.urljoin`)

Modelled for the http/https URLs the application handles: a reference with
its own scheme is taken as-is, a network-path reference keeps the base
scheme, an absolute path replaces the base path, and a relative path is
merged onto the base path directory, with `.` and `..` segments resolved. -/

def isSchemeChar (c : Char) : Bool :=
  c.isAlpha || c.isDigit || c == '+' || c == '-' || c == '.'

/-- Splits a leading `scheme:` off a character list, if present. -/
def schemeSplit : List Char → List Char → Option (List Char × List Char)
  | [], _ => none
  | c :: cs, acc =>
    if c = ':' then some (acc.reverse, cs)
    else if isSchemeChar c then schemeSplit cs (c :: acc)
    else none

/-- Splits `rest` (after `scheme://`) into the netloc and the path. -/
def netlocSplit : List Char → List Char × List Char
  | [] => ([], [])
  | c :: cs =>
    if c = '/' then ([], c :: cs)
    else
      let p := netlocSplit cs
      (c :: p.1, p.2)

/-- Parses `scheme://netloc/path` into its three components. -/
def parseAbsUrl (u : List Char) : Option (List Char × List Char × List Char) :=
  match u with
  | [] => none
  | c :: _ =>
    if c.isAlpha then
      match schemeSplit u [] with
      | none => none
      | some (sch, rest) =>
        match rest with
        | '/' :: '/' :: tail =>
          let p := netlocSplit tail
          some (sch, p.1, p.2)
        | _ => some (sch, [], rest)
    else none

/-- The base path up to and including its last slash (the directory part). -/
def dirPart (p : List Char) : List Char :=
  (p.reverse.dropWhile (fun c => !(c = '/'))).reverse

/-- Splits a path into its slash-separated segments. -/
def pathSegs : List Char → List (List Char)
  | [] => [[]]
  | c :: cs =>
    if c = '/' then [] :: pathSegs cs
    else
      match pathSegs cs with
      | s :: ss => (c :: s) :: ss
      | [] => [[c]]

/-- Resolves `.` and `..` segments, keeping the leading root segment. -/
def normSegsGo : List (List Char) → List (List Char) → List (List Char)
  | out, [] => out.reverse
  | out, s :: rest =>
    if s = ['.'] then
      if rest = [] then ([] :: out).reverse else normSegsGo out rest
    else if s = ['.', '.'] then
      let out2 : List (List Char) :=
        match out with
        | [] => []
        | [x] => [x]
        | _ :: xs => xs
      if rest = [] then ([] :: out2).reverse else normSegsGo out2 rest
    else normSegsGo (s :: out) rest

/-- Normalizes a path: segment split, dot-segment removal, rejoin. -/
def normPath (p : List Char) : List Char :=
  List.intercalate ['/'] (normSegsGo [] (pathSegs p))

/-- `urllib.parse.urljoin` on character lists. -/
def urljoinL (base ref : List Char) : List Char :=
  match ref with
  | [] => base
  | c :: _ =>
    if c.isAlpha && (schemeSplit ref []).isSome then ref
    else
      match parseAbsUrl base with
      | none => ref
      | some (sch, netloc, path) =>
        match ref with
        | '/' :: '/' :: _ => sch ++ [':'] ++ ref
        | '/' :: _ => sch ++ (':' :: '/' :: '/' :: netloc) ++ normPath ref
        | _ => sch ++ (':' :: '/' :: '/' :: netloc) ++ normPath (dirPart path ++ ref)

/-- `urljoin(url, href)` as used at `app.py` lines 72 and 89. -/
def urljoin (base ref : String) : String :=
  String.mk (urljoinL base.data ref.data)

/-! ### HTML document model -/

/-- One element tag: its name and its attributes in order.  A `Doc` is the
document-order sequence of tags, the view `soup.find_all` iterates over. -/
structure Tag where
  name : String
  attrs : List (String × String)
deriving DecidableEq, Repr

abbrev Doc := List Tag

/-- `tag.get(attr)`: the attribute value, or `none` when absent. -/
def getAttr (t : Tag) (a : String) : Option String :=
  (t.attrs.find? (fun p => p.1 == a)).map Prod.snd

/-- Matches `soup.find_all("link", rel="stylesheet")`. -/
def isStylesheetLink (t : Tag) : Bool :=
  t.name == "link" && getAttr t "rel" == some "stylesheet"

/-- Matches `soup.find_all("script", src=True)`: the `src` attribute must be
present, but may be empty. -/
def isScriptWithSrc (t : Tag) : Bool :=
  t.name == "script" && (getAttr t "src").isSome

def stylesheetLinks (doc : Doc) : List Tag := doc.filter isStylesheetLink

def scriptTags (doc : Doc) : List Tag := doc.filter isScriptWithSrc

/-- Token stream of the pretty-printed serialization: every tag is rendered
with its attribute values verbatim (`soup.prettify()` reformats whitespace
but never rewrites attribute values). -/
def tagTokens (t : Tag) : List String :=
  ["<", t.name] ++
    (t.attrs.map (fun a => [" ", a.1, "=\x22", a.2, "\x22"])).flatten ++
    [">", "\n"]

def prettifyTokens (doc : Doc) : List String :=
  (doc.map tagTokens).flatten

/-- `soup.prettify()` (`app.py` line 65). -/
def prettify (doc : Doc) : String :=
  String.join (prettifyTokens doc)

/-- All attribute values of the document, in order. -/
def attrValues (doc : Doc) : List String :=
  (doc.map (fun t => t.attrs.map Prod.snd)).flatten

/-! ### Fetching -/

/-- Result of `requests.get(u)` followed by `raise_for_status()`: the body
text on success, or the exception message on a network error or
non-success HTTP status. -/
inductive FetchResult where
  | ok (text : String)
  | err (msg : String)
deriving DecidableEq, Repr

abbrev Fetch := String → FetchResult

/-! ### Filesystem -/

/-- Chronological write log: `open(path, "w").write(content)` appends an
entry; a later entry for the same path shadows earlier ones. -/
abbrev FS := List (String × String)

/-! ### Asset archiving (`app.py` lines 68-99) -/

def cssFilename (idx : Nat) : String := "style_" ++ toString idx ++ ".css"

def cssLocalPath (idx : Nat) : String := "static/css/" ++ cssFilename idx

def cssPublicPath (idx : Nat) : String := "/static/css/" ++ cssFilename idx

def jsFilename (idx : Nat) : String := "script_" ++ toString idx ++ ".js"

def jsLocalPath (idx : Nat) : String := "static/js/" ++ jsFilename idx

def jsPublicPath (idx : Nat) : String := "/static/js/" ++ jsFilename idx

/-- The CSS loop (`app.py` lines 68-82): `idx` enumerates every tag in the
`find_all` result, whether or not it has a usable `href`; an element with a
missing or empty `href` is skipped but its index is still consumed.  Returns
the public paths appended to `css_files` and the chronological file writes. -/
def cssLoop (fetch : Fetch) (pageUrl : String) :
    Nat → List Tag → List String × List (String × String)
  | _, [] => ([], [])
  | idx, t :: rest =>
    let tail := cssLoop fetch pageUrl (idx + 1) rest
    match getAttr t "href" with
    | none => tail
    | some href =>
      if href = "" then tail
      else
        match fetch (urljoin pageUrl href) with
        | .err _ => tail
        | .ok text =>
          (cssPublicPath idx :: tail.1, (cssLocalPath idx, text) :: tail.2)

/-- The JS loop (`app.py` lines 85-99), same shape over `src`. -/
def jsLoop (fetch : Fetch) (pageUrl : String) :
    Nat → List Tag → List String × List (String × String)
  | _, [] => ([], [])
  | idx, t :: rest =>
    let tail := jsLoop fetch pageUrl (idx + 1) rest
    match getAttr t "src" with
    | none => tail
    | some src =>
      if src = "" then tail
      else
        match fetch (urljoin pageUrl src) with
        | .err _ => tail
        | .ok text =>
          (jsPublicPath idx :: tail.1, (jsLocalPath idx, text) :: tail.2)

/-- Specification view of one CSS iteration: at enumerated position `p.1`,
yields the fetched text when the tag has a non-empty `href` that fetches
successfully. -/
def cssSpecFn (fetch : Fetch) (pageUrl : String) (p : Nat × Tag) :
    Option (Nat × String) :=
  match getAttr p.2 "href" with
  | none => none
  | some href =>
    if href = "" then none
    else
      match fetch (urljoin pageUrl href) with
      | .err _ => none
      | .ok text => some (p.1, text)

/-- Specification view of one JS iteration. -/
def jsSpecFn (fetch : Fetch) (pageUrl : String) (p : Nat × Tag) :
    Option (Nat × String) :=
  match getAttr p.2 "src" with
  | none => none
  | some src =>
    if src = "" then none
    else
      match fetch (urljoin pageUrl src) with
      | .err _ => none
      | .ok text => some (p.1, text)

/-- The `(index, fetched text)` pairs of the successfully archived
stylesheets, indices taken over the whole `find_all` result. -/
def cssPairs (fetch : Fetch) (pageUrl : String) (doc : Doc) : List (Nat × String) :=
  ((stylesheetLinks doc).enum).filterMap (cssSpecFn fetch pageUrl)

/-- The `(index, fetched text)` pairs of the successfully archived scripts. -/
def jsPairs (fetch : Fetch) (pageUrl : String) (doc : Doc) : List (Nat × String) :=
  ((scriptTags doc).enum).filterMap (jsSpecFn fetch pageUrl)

/-! ### Document store (MongoDB collection `templates`) -/

/-- The document inserted at `app.py` lines 106-112. -/
structure Record where
  url : String
  html : String
  css_files : List String
  js_files : List String
deriving DecidableEq, Repr

/-- The collection: stored `(ObjectId, record)` pairs in insertion order,
plus a counter for minting fresh ObjectIds. -/
structure Store where
  recs : List (String × Record)
  nextId : Nat
deriving DecidableEq, Repr

def hexCharOf (n : Nat) : Char :=
  if n < 10 then Char.ofNat (48 + n) else Char.ofNat (87 + n)

/-- A fresh 24-hex-digit ObjectId string minted from the counter. -/
def mintId (n : Nat) : String :=
  String.mk ((List.range 24).map (fun i => hexCharOf (n / 16 ^ (23 - i) % 16)))

/-- `collection.find_one({"url": url})` is truthy (`app.py` line 102). -/
def hasUrl (st : Store) (u : String) : Bool :=
  st.recs.any (fun p => p.2.url == u)

/-- `collection.insert_one(document)` (`app.py` line 112): appends the
record under a fresh id and returns the inserted id. -/
def insertOne (st : Store) (r : Record) : String × Store :=
  (mintId st.nextId,
   { recs := st.recs ++ [(mintId st.nextId, r)], nextId := st.nextId + 1 })

/-! ### Scrape pipeline (`app.py` lines 50-114) -/

inductive ScrapeError where
  | fetchFailed (errMsg : String)
  | duplicateUrl
deriving DecidableEq, Repr

/-- Both scrape failures raise `HTTPException(status_code=400, ...)`. -/
def scrapeErrorStatus : ScrapeError → Nat := fun _ => 400

/-- The `detail` string of the raised `HTTPException`. -/
def scrapeErrorDetail : ScrapeError → String
  | .fetchFailed e => "Failed to fetch the URL: " ++ e
  | .duplicateUrl => "This URL has already been scraped."

inductive ScrapeResp where
  | redirect (url : String) (status : Nat)
  | failure (e : ScrapeError)
deriving DecidableEq, Repr

structure ScrapeOutcome where
  resp : ScrapeResp
  fs : FS
  store : Store
deriving DecidableEq, Repr

/-- `scrape_website` (`app.py` lines 50-114): fetch the page, parse it,
archive CSS then JS assets, then check for a duplicate URL, and only then
insert and redirect.  `fetch` and `parse` are the HTTP and BeautifulSoup
oracles; `st` and `fs` are the store and filesystem before the request. -/
def scrape (fetch : Fetch) (parse : String → Doc) (st : Store) (fs : FS)
    (url : String) : ScrapeOutcome :=
  match fetch url with
  | .err e => ⟨.failure (.fetchFailed e), fs, st⟩
  | .ok content =>
    let doc := parse content
    let html_content := prettify doc
    let css := cssLoop fetch url 0 (stylesheetLinks doc)
    let js := jsLoop fetch url 0 (scriptTags doc)
    let fs2 := fs ++ css.2 ++ js.2
    if hasUrl st url then ⟨.failure .duplicateUrl, fs2, st⟩
    else
      let ins := insertOne st ⟨url, html_content, css.1, js.1⟩
      ⟨.redirect ("/render/" ++ ins.1) 303, fs2, ins.2⟩

/-! ### Render lookup (`app.py` lines 117-143) -/

inductive RenderError where
  | invalidId
  | notFound
deriving DecidableEq, Repr

/-- `InvalidId` surfaces as 400, `NotFound` as 404. -/
def renderErrorStatus : RenderError → Nat
  | .invalidId => 400
  | .notFound => 404

def renderErrorDetail : RenderError → String
  | .invalidId => "Invalid template ID."
  | .notFound => "Template not found."

inductive FindResult where
  | found (r : Record)
  | failed (e : RenderError)
deriving DecidableEq, Repr

def lowerStr (s : String) : String := String.mk (s.data.map Char.toLower)

def isHexDigitChar (c : Char) : Bool :=
  c.isDigit || ('a' ≤ c && c ≤ 'f') || ('A' ≤ c && c ≤ 'F')

/-- `ObjectId(template_id)` succeeds exactly on 24-hex-digit strings;
anything else raises and is caught at `app.py` lines 125-126. -/
def validObjectId (s : String) : Bool :=
  s.length == 24 && s.data.all isHexDigitChar

/-- The lookup of `render_template` (`app.py` lines 122-129): a malformed id
raises inside the `try` and becomes `invalidId`; a well-formed id that
matches no record becomes `notFound`.  ObjectId comparison is on the decoded
bytes, hence case-insensitive on the hex string. -/
def findById (st : Store) (template_id : String) : FindResult :=
  if validObjectId template_id then
    match st.recs.find? (fun p => p.1 == lowerStr template_id) with
    | some p => .found p.2
    | none => .failed .notFound
  else .failed .invalidId

/-! ### Route surface facts used by the redirect claim -/

/-- The render route is registered at the fixed path `/render`. -/
def renderRoutePath : String := "/render"

/-- The render route takes its identifier from the query parameter
`template_id` (`app.py` line 118). -/
def renderQueryParam : String := "template_id"

/-- Whether a request path is served by the render route. -/
def renderRouteMatches (path : String) : Bool := path == renderRoutePath

/-! ### Characterization lemmas -/

/-- The CSS loop of `app.py` lines 68-82 equals its specification view:
public paths and file writes are the image of `filterMap` over the
enumerated `find_all` result, so indices count every matched tag and order
follows discovery order. -/
theorem cssLoop_spec (fetch : Fetch) (u : String) :
    ∀ (start : Nat) (links : List Tag),
    cssLoop fetch u start links =
      (((links.enumFrom start).filterMap (cssSpecFn fetch u)).map
         (fun p => cssPublicPath p.1),
       ((links.enumFrom start).filterMap (cssSpecFn fetch u)).map
         (fun p => (cssLocalPath p.1, p.2))) := by
  intro start links
  induction links generalizing start with
  | nil => simp [cssLoop]
  | cons t rest ih =>
    simp only [cssLoop, List.enumFrom, List.filterMap_cons, ih]
    cases h : getAttr t "href" with
    | none => simp [cssSpecFn, h]
    | some href =>
      by_cases he : href = ""
      · simp [cssSpecFn, h, he]
      · cases hf : fetch (urljoin u href) with
        | err m => simp [cssSpecFn, h, he, hf]
        | ok text => simp [cssSpecFn, h, he, hf]

/-- The JS loop of `app.py` lines 85-99 equals its specification view. -/
theorem jsLoop_spec (fetch : Fetch) (u : String) :
    ∀ (start : Nat) (links : List Tag),
    jsLoop fetch u start links =
      (((links.enumFrom start).filterMap (jsSpecFn fetch u)).map
         (fun p => jsPublicPath p.1),
       ((links.enumFrom start).filterMap (jsSpecFn fetch u)).map
         (fun p => (jsLocalPath p.1, p.2))) := by
  intro start links
  induction links generalizing start with
  | nil => simp [jsLoop]
  | cons t rest ih =>
    simp only [jsLoop, List.enumFrom, List.filterMap_cons, ih]
    cases h : getAttr t "src" with
    | none => simp [jsSpecFn, h]
    | some src =>
      by_cases he : src = ""
      · simp [jsSpecFn, h, he]
      · cases hf : fetch (urljoin u src) with
        | err m => simp [jsSpecFn, h, he, hf]
        | ok text => simp [jsSpecFn, h, he, hf]

/-- Membership in the archived-stylesheet pairs holds exactly for the
indices whose tag carries a non-empty `href` that fetches successfully. -/
theorem mem_cssPairs_iff (fetch : Fetch) (u : String) (links : List Tag)
    (i : Nat) (text : String) :
    (i, text) ∈ links.enum.filterMap (cssSpecFn fetch u) ↔
      ∃ t href, links[i]? = some t ∧ getAttr t "href" = some href ∧ href ≠ "" ∧
        fetch (urljoin u href) = .ok text := by
  constructor
  · intro h
    obtain ⟨⟨j, t⟩, hp, hf⟩ := List.mem_filterMap.mp h
    rw [List.mk_mem_enum_iff_getElem?] at hp
    cases hh : getAttr t "href" with
    | none =>
      simp only [cssSpecFn, hh] at hf
      exact Option.noConfusion hf
    | some href =>
      by_cases he : href = ""
      · subst he
        simp [cssSpecFn, hh] at hf
      · cases hfe : fetch (urljoin u href) with
        | err m => simp [cssSpecFn, hh, he, hfe] at hf
        | ok tx =>
          simp only [cssSpecFn, hh, if_neg he, hfe, Option.some.injEq,
            Prod.mk.injEq] at hf
          obtain ⟨hj, ht⟩ := hf
          subst hj
          subst ht
          exact ⟨t, href, hp, hh, he, hfe⟩
  · rintro ⟨t, href, hget, hh, he, hfe⟩
    rw [List.mem_filterMap]
    refine ⟨(i, t), ?_, ?_⟩
    · rw [List.mk_mem_enum_iff_getElem?]
      exact hget
    · simp [cssSpecFn, hh, he, hfe]

/-- Membership in the archived-script pairs, analogously. -/
theorem mem_jsPairs_iff (fetch : Fetch) (u : String) (links : List Tag)
    (i : Nat) (text : String) :
    (i, text) ∈ links.enum.filterMap (jsSpecFn fetch u) ↔
      ∃ t src, links[i]? = some t ∧ getAttr t "src" = some src ∧ src ≠ "" ∧
        fetch (urljoin u src) = .ok text := by
  constructor
  · intro h
    obtain ⟨⟨j, t⟩, hp, hf⟩ := List.mem_filterMap.mp h
    rw [List.mk_mem_enum_iff_getElem?] at hp
    cases hh : getAttr t "src" with
    | none =>
      simp only [jsSpecFn, hh] at hf
      exact Option.noConfusion hf
    | some src =>
      by_cases he : src = ""
      · subst he
        simp [jsSpecFn, hh] at hf
      · cases hfe : fetch (urljoin u src) with
        | err m => simp [jsSpecFn, hh, he, hfe] at hf
        | ok tx =>
          simp only [jsSpecFn, hh, if_neg he, hfe, Option.some.injEq,
            Prod.mk.injEq] at hf
          obtain ⟨hj, ht⟩ := hf
          subst hj
          subst ht
          exact ⟨t, src, hp, hh, he, hfe⟩
  · rintro ⟨t, src, hget, hh, he, hfe⟩
    rw [List.mem_filterMap]
    refine ⟨(i, t), ?_, ?_⟩
    · rw [List.mk_mem_enum_iff_getElem?]
      exact hget
    · simp [jsSpecFn, hh, he, hfe]

/-- Every attribute value of the document appears verbatim in the
pretty-printed token stream. -/
theorem attrValue_mem_prettifyTokens (doc : Doc) (t : Tag) (ht : t ∈ doc)
    (a : String × String) (ha : a ∈ t.attrs) : a.2 ∈ prettifyTokens doc := by
  unfold prettifyTokens
  rw [List.mem_flatten]
  refine ⟨tagTokens t, List.mem_map_of_mem _ ht, ?_⟩
  unfold tagTokens
  have hmid : a.2 ∈ (t.attrs.map (fun b => [" ", b.1, "=\x22", b.2, "\x22"])).flatten := by
    rw [List.mem_flatten]
    exact ⟨[" ", a.1, "=\x22", a.2, "\x22"], List.mem_map_of_mem _ ha, by simp⟩
  simp [List.mem_append, hmid]

/-- No redirect target of a successful scrape equals the render route path:
`/render/` followed by anything is longer than `/render`. -/
theorem redirect_not_render_path (s : String) :
    renderRouteMatches ("/render/" ++ s) = false := by
  simp only [renderRouteMatches, renderRoutePath, beq_eq_false_iff_ne, ne_eq]
  intro h
  have h2 := congrArg String.length h
  rw [String.length_append] at h2
  have h3 : "/render/".length = 8 := rfl
  have h4 : "/render".length = 7 := rfl
  omega

/-- Unfolding of a scrape whose page fetch succeeds and whose URL is new. -/
theorem scrape_insert_eq (fetch : Fetch) (parse : String → Doc) (st : Store)
    (fs : FS) (url content : String)
    (hfetch : fetch url = .ok content) (hdup : hasUrl st url = false) :
    scrape fetch parse st fs url =
      ⟨.redirect ("/render/" ++ mintId st.nextId) 303,
       fs ++ (cssLoop fetch url 0 (stylesheetLinks (parse content))).2
          ++ (jsLoop fetch url 0 (scriptTags (parse content))).2,
       ⟨st.recs ++ [(mintId st.nextId,
          ⟨url, prettify (parse content),
           (cssLoop fetch url 0 (stylesheetLinks (parse content))).1,
           (jsLoop fetch url 0 (scriptTags (parse content))).1⟩)],
        st.nextId + 1⟩⟩ := by
  simp [scrape, hfetch, hdup, insertOne]

/-- Unfolding of a scrape whose page fetch succeeds but whose URL is already
stored. -/
theorem scrape_dup_eq (fetch : Fetch) (parse : String → Doc) (st : Store)
    (fs : FS) (url content : String)
    (hfetch : fetch url = .ok content) (hdup : hasUrl st url = true) :
    scrape fetch parse st fs url =
      ⟨.failure .duplicateUrl,
       fs ++ (cssLoop fetch url 0 (stylesheetLinks (parse content))).2
          ++ (jsLoop fetch url 0 (scriptTags (parse content))).2,
       st⟩ := by
  simp [scrape, hfetch, hdup]

/-! ### Concrete fixtures used by witnesses and counterexamples -/

/-- A page with: a stylesheet link missing its `href`, a fetchable
stylesheet, an unfetchable stylesheet, a fetchable script, a script with an
empty `src`, and a script with no `src` at all. -/
def docW : Doc :=
  [⟨"link", [("rel", "stylesheet"), ("href", "a.css")]⟩,
   ⟨"link", [("rel", "stylesheet")]⟩,
   ⟨"link", [("rel", "stylesheet"), ("href", "bad.css")]⟩,
   ⟨"script", [("src", "s.js")]⟩,
   ⟨"script", [("src", "")]⟩,
   ⟨"script", []⟩]

/-- HTTP oracle: the page, `a.css` and `s.js` resolve; everything else
(in particular `bad.css`) fails with a non-success status. -/
def fetchW : Fetch := fun u =>
  if u = "http://x.test/dir/page.html" then .ok "PAGE"
  else if u = "http://x.test/dir/a.css" then .ok "CSSA"
  else if u = "http://x.test/dir/s.js" then .ok "JSBODY"
  else .err "404 Client Error"

/-- Parser oracle returning the fixture document. -/
def parseW : String → Doc := fun _ => docW

/-- HTTP oracle where every request fails. -/
def fetchDown : Fetch := fun _ => .err "connection refused"

def stEmpty : Store := ⟨[], 0⟩

/-- A store already holding a record for the fixture page URL. -/
def stDup : Store :=
  ⟨[(mintId 0, ⟨"http://x.test/dir/page.html", "", [], []⟩)], 1⟩

/-- Document for the index-counting counterexample: a stylesheet link with
no `href` before a fetchable one, and a script with empty `src` before a
fetchable one. -/
def docC1 : Doc :=
  [⟨"link", [("rel", "stylesheet")]⟩,
   ⟨"link", [("rel", "stylesheet"), ("href", "a.css")]⟩,
   ⟨"script", [("src", "")]⟩,
   ⟨"script", [("src", "s.js")]⟩]

/-- HTTP oracle for the counterexample: every asset fetch succeeds. -/
def fetchC1 : Fetch := fun _ => .ok "body"

/-! ### Claim theorems -/

/-- C1 counterexample: in `app.py` lines 69 and 86, `enumerate` assigns the
index over every tag returned by `find_all`, before the `if href:` /
`if src:` guard runs.  A `<link rel="stylesheet">` with no `href` therefore
consumes index 0 and the following fetchable stylesheet is archived as
`style_1.css`, not `style_0.css`; likewise a `<script src="">` consumes
index 0 and the following fetchable script is archived as `script_1.js`.
This refutes the claim that such elements do not consume an index. -/
theorem asset_index_counterexample :
    (cssLoop fetchC1 "http://x.test/" 0 (stylesheetLinks docC1)).1 =
      ["/static/css/style_1.css"] ∧
    "/static/css/style_0.css" ∉
      (cssLoop fetchC1 "http://x.test/" 0 (stylesheetLinks docC1)).1 ∧
    (jsLoop fetchC1 "http://x.test/" 0 (scriptTags docC1)).1 =
      ["/static/js/script_1.js"] ∧
    "/static/js/script_0.js" ∉
      (jsLoop fetchC1 "http://x.test/" 0 (scriptTags docC1)).1 := by
  decide

/-- C1 (amended): the index in an archived asset filename is the element
position among all tags matched by the discovery query — every
`<link rel="stylesheet">` whether or not it has a usable `href`, and every
`<script>` that carries a `src` attribute (possibly empty).  Elements with a
missing or empty attribute are skipped for archiving but still consume
their index; only a `<script>` with no `src` attribute at all is outside
the enumeration. -/
theorem asset_index_counts_all_matched_tags (fetch : Fetch) (u : String)
    (doc : Doc) :
    (cssLoop fetch u 0 (stylesheetLinks doc)).1 =
      (cssPairs fetch u doc).map (fun p => cssPublicPath p.1) ∧
    (jsLoop fetch u 0 (scriptTags doc)).1 =
      (jsPairs fetch u doc).map (fun p => jsPublicPath p.1) ∧
    stylesheetLinks doc = doc.filter isStylesheetLink ∧
    scriptTags doc = doc.filter isScriptWithSrc := by
  refine ⟨?_, ?_, rfl, rfl⟩
  · rw [cssLoop_spec]
    rfl
  · rw [jsLoop_spec]
    rfl

/-- C2: when the target URL is already stored and the page fetch succeeds,
`app.py` line 102-103 raises the duplicate-URL rejection before line 112
runs, so no record is inserted and the store is unchanged. -/
theorem duplicate_url_rejected_without_insert (fetch : Fetch)
    (parse : String → Doc) (st : Store) (fs : FS) (url content : String)
    (hfetch : fetch url = .ok content) (hdup : hasUrl st url = true) :
    (scrape fetch parse st fs url).resp = .failure .duplicateUrl ∧
    (scrape fetch parse st fs url).store = st ∧
    scrapeErrorDetail .duplicateUrl = "This URL has already been scraped." ∧
    scrapeErrorStatus .duplicateUrl = 400 := by
  rw [scrape_dup_eq fetch parse st fs url content hfetch hdup]
  exact ⟨rfl, rfl, rfl, rfl⟩

/-- Witness for C2 on the fixture store that already holds the page URL. -/
theorem duplicate_url_rejected_without_insert_witness :
    (scrape fetchW parseW stDup [] "http://x.test/dir/page.html").resp =
      .failure .duplicateUrl ∧
    (scrape fetchW parseW stDup [] "http://x.test/dir/page.html").store =
      stDup :=
  ⟨(duplicate_url_rejected_without_insert fetchW parseW stDup []
      "http://x.test/dir/page.html" "PAGE" (by decide) (by decide)).1,
   (duplicate_url_rejected_without_insert fetchW parseW stDup []
      "http://x.test/dir/page.html" "PAGE" (by decide) (by decide)).2.1⟩

/-- C4: when the primary page fetch fails (`app.py` lines 56-60), the scrape
aborts with a 400 error whose detail embeds the underlying fetch error, and
neither the filesystem nor the store is touched. -/
theorem primary_fetch_failure_aborts_scrape (fetch : Fetch)
    (parse : String → Doc) (st : Store) (fs : FS) (url e : String)
    (hfetch : fetch url = .err e) :
    (scrape fetch parse st fs url).resp = .failure (.fetchFailed e) ∧
    scrapeErrorStatus (.fetchFailed e) = 400 ∧
    scrapeErrorDetail (.fetchFailed e) = "Failed to fetch the URL: " ++ e ∧
    (scrape fetch parse st fs url).fs = fs ∧
    (scrape fetch parse st fs url).store = st := by
  simp [scrape, hfetch, scrapeErrorStatus, scrapeErrorDetail]

/-- Witness for C4 with an oracle whose every request fails. -/
theorem primary_fetch_failure_aborts_scrape_witness :
    (scrape fetchDown parseW stEmpty [] "http://x.test/dir/page.html").resp =
      .failure (.fetchFailed "connection refused") ∧
    scrapeErrorDetail (.fetchFailed "connection refused") =
      "Failed to fetch the URL: " ++ "connection refused" ∧
    (scrape fetchDown parseW stEmpty [] "http://x.test/dir/page.html").fs = [] ∧
    (scrape fetchDown parseW stEmpty [] "http://x.test/dir/page.html").store =
      stEmpty := by
  have h := primary_fetch_failure_aborts_scrape fetchDown parseW stEmpty []
    "http://x.test/dir/page.html" "connection refused" (by decide)
  exact ⟨h.1, h.2.2.1, h.2.2.2.1, h.2.2.2.2⟩

/-- C6: `render_template` (`app.py` lines 122-129) fails with the 400
invalid-identifier error exactly on malformed ObjectIds, and with the 404
not-found error exactly on well-formed identifiers matching no record; the
two outcomes are distinct and cannot both occur for one identifier. -/
theorem render_lookup_invalid_vs_missing (st : Store) (tid : String) :
    (validObjectId tid = false →
      findById st tid = .failed .invalidId ∧
      renderErrorStatus .invalidId = 400) ∧
    (validObjectId tid = true →
      st.recs.find? (fun p => p.1 == lowerStr tid) = none →
      findById st tid = .failed .notFound ∧
      renderErrorStatus .notFound = 404) ∧
    RenderError.invalidId ≠ RenderError.notFound ∧
    ¬(findById st tid = .failed .invalidId ∧
      findById st tid = .failed .notFound) := by
  refine ⟨fun hv => ⟨by simp [findById, hv], rfl⟩,
          fun hv hn => ⟨by simp [findById, hv, hn], rfl⟩, by decide, ?_⟩
  rintro ⟨h1, h2⟩
  rw [h1] at h2
  exact absurd (FindResult.failed.inj h2) (by decide)

/-- Witness for C6: a malformed identifier yields the invalid-id failure
and a well-formed absent identifier yields the not-found failure. -/
theorem render_lookup_invalid_vs_missing_witness :
    findById stDup "not-a-hex-objectid......" = .failed .invalidId ∧
    findById stDup "00000000000000000000ffff" = .failed .notFound :=
  ⟨((render_lookup_invalid_vs_missing stDup "not-a-hex-objectid......").1
      (by decide)).1,
   ((render_lookup_invalid_vs_missing stDup "00000000000000000000ffff").2.1
      (by decide) (by decide)).1⟩

/-- C8: the URL resolver follows standard URL-joining rules on the two
specified examples: a relative reference is merged onto the base directory
and a rooted reference replaces the base path. -/
theorem urljoin_standard_examples :
    urljoin "http://x.test/dir/page.html" "a/b.css" =
      "http://x.test/dir/a/b.css" ∧
    urljoin "http://x.test/dir/page.html" "/c.css" = "http://x.test/c.css" := by
  decide

/-- C3: for a scraped page, `css_files` of the stored record is exactly the
image of the successfully fetched stylesheets, in discovery order with
failed fetches absent; each entry corresponds to a file write holding
exactly the fetched text; and an index appears exactly when its link has a
non-empty `href` that fetches successfully. -/
theorem cssPaths_exactly_fetchable_in_order (fetch : Fetch)
    (parse : String → Doc) (st : Store) (fs : FS) (url content : String)
    (hfetch : fetch url = .ok content) (hdup : hasUrl st url = false) :
    ∃ oid r,
      ((scrape fetch parse st fs url).store.recs).getLast? = some (oid, r) ∧
      r.css_files = (cssPairs fetch url (parse content)).map
        (fun p => cssPublicPath p.1) ∧
      r.css_files.length = (cssPairs fetch url (parse content)).length ∧
      (∀ p ∈ cssPairs fetch url (parse content),
        (cssLocalPath p.1, p.2) ∈ (scrape fetch parse st fs url).fs) ∧
      (∀ i text, (i, text) ∈ cssPairs fetch url (parse content) ↔
        ∃ t href, (stylesheetLinks (parse content))[i]? = some t ∧
          getAttr t "href" = some href ∧ href ≠ "" ∧
          fetch (urljoin url href) = .ok text) := by
  have hcss := cssLoop_spec fetch url 0 (stylesheetLinks (parse content))
  rw [scrape_insert_eq fetch parse st fs url content hfetch hdup]
  refine ⟨mintId st.nextId, _, List.getLast?_concat _, ?_, ?_, ?_, ?_⟩
  · rw [hcss]
    rfl
  · rw [hcss]
    simp [cssPairs, List.enum]
  · intro p hp
    rw [hcss]
    exact List.mem_append_left _ (List.mem_append_right _
      (List.mem_map_of_mem _ hp))
  · intro i text
    exact mem_cssPairs_iff fetch url (stylesheetLinks (parse content)) i text

/-- Witness for C3 on the fixture page: one fetchable stylesheet out of
three discovered links. -/
theorem cssPaths_exactly_fetchable_in_order_witness :
    hasUrl stEmpty "http://x.test/dir/page.html" = false ∧
    (∃ oid r,
      ((scrape fetchW parseW stEmpty []
          "http://x.test/dir/page.html").store.recs).getLast? = some (oid, r) ∧
      r.css_files = (cssPairs fetchW "http://x.test/dir/page.html"
        (parseW "PAGE")).map (fun p => cssPublicPath p.1) ∧
      r.css_files.length = (cssPairs fetchW "http://x.test/dir/page.html"
        (parseW "PAGE")).length ∧
      (∀ p ∈ cssPairs fetchW "http://x.test/dir/page.html" (parseW "PAGE"),
        (cssLocalPath p.1, p.2) ∈
          (scrape fetchW parseW stEmpty [] "http://x.test/dir/page.html").fs) ∧
      (∀ i text,
        (i, text) ∈ cssPairs fetchW "http://x.test/dir/page.html"
          (parseW "PAGE") ↔
        ∃ t href, (stylesheetLinks (parseW "PAGE"))[i]? = some t ∧
          getAttr t "href" = some href ∧ href ≠ "" ∧
          fetchW (urljoin "http://x.test/dir/page.html" href) = .ok text)) :=
  ⟨by decide,
   cssPaths_exactly_fetchable_in_order fetchW parseW stEmpty []
     "http://x.test/dir/page.html" "PAGE" (by decide) (by decide)⟩

/-- C5: per-asset fetch failures are absorbed.  When the primary fetch
succeeds, the scrape never surfaces a fetch error; a failed asset
contributes no `(index, text)` pair (hence no path entry and no file
write); and the produced path lists still cover every other successfully
fetched asset, so processing continues past the failure. -/
theorem per_asset_fetch_failure_absorbed (fetch : Fetch)
    (parse : String → Doc) (st : Store) (fs : FS) (url content : String)
    (hfetch : fetch url = .ok content) :
    (∀ m, (scrape fetch parse st fs url).resp ≠ .failure (.fetchFailed m)) ∧
    (∀ i t href m, (stylesheetLinks (parse content))[i]? = some t →
      getAttr t "href" = some href → href ≠ "" →
      fetch (urljoin url href) = .err m →
      ∀ text, (i, text) ∉ cssPairs fetch url (parse content)) ∧
    (∀ i t src m, (scriptTags (parse content))[i]? = some t →
      getAttr t "src" = some src → src ≠ "" →
      fetch (urljoin url src) = .err m →
      ∀ text, (i, text) ∉ jsPairs fetch url (parse content)) ∧
    ((cssLoop fetch url 0 (stylesheetLinks (parse content))).1 =
      (cssPairs fetch url (parse content)).map (fun p => cssPublicPath p.1)) ∧
    ((jsLoop fetch url 0 (scriptTags (parse content))).1 =
      (jsPairs fetch url (parse content)).map (fun p => jsPublicPath p.1)) := by
  refine ⟨?_, ?_, ?_, ?_, ?_⟩
  · intro m
    cases hd : hasUrl st url with
    | true =>
      rw [scrape_dup_eq fetch parse st fs url content hfetch hd]
      simp
    | false =>
      rw [scrape_insert_eq fetch parse st fs url content hfetch hd]
      simp
  · intro i t href m hget hh he hfe text hmem
    obtain ⟨t2, href2, hget2, hh2, he2, hfe2⟩ :=
      (mem_cssPairs_iff fetch url _ i text).mp hmem
    rw [hget] at hget2
    obtain rfl := Option.some.inj hget2
    rw [hh] at hh2
    obtain rfl := Option.some.inj hh2
    rw [hfe] at hfe2
    exact FetchResult.noConfusion hfe2
  · intro i t src m hget hh he hfe text hmem
    obtain ⟨t2, src2, hget2, hh2, he2, hfe2⟩ :=
      (mem_jsPairs_iff fetch url _ i text).mp hmem
    rw [hget] at hget2
    obtain rfl := Option.some.inj hget2
    rw [hh] at hh2
    obtain rfl := Option.some.inj hh2
    rw [hfe] at hfe2
    exact FetchResult.noConfusion hfe2
  · rw [cssLoop_spec]
    rfl
  · rw [jsLoop_spec]
    rfl

/-- Witness for C5 on the fixture page, whose `bad.css` link fails to
fetch while `a.css` and `s.js` succeed. -/
theorem per_asset_fetch_failure_absorbed_witness :
    (∀ m, (scrape fetchW parseW stEmpty []
        "http://x.test/dir/page.html").resp ≠ .failure (.fetchFailed m)) ∧
    (cssLoop fetchW "http://x.test/dir/page.html" 0
        (stylesheetLinks (parseW "PAGE"))).1 = ["/static/css/style_0.css"] ∧
    (∀ text, (2, text) ∉ cssPairs fetchW "http://x.test/dir/page.html"
        (parseW "PAGE")) := by
  have h := per_asset_fetch_failure_absorbed fetchW parseW stEmpty []
    "http://x.test/dir/page.html" "PAGE" (by decide)
  refine ⟨h.1, by decide, ?_⟩
  exact h.2.1 2 ⟨"link", [("rel", "stylesheet"), ("href", "bad.css")]⟩
    "bad.css" "404 Client Error" (by decide) (by decide) (by decide) (by decide)

/-- C7: the stored record keeps the pretty-printed serialization of the
parsed page: `html` equals `prettify` of the parsed document — a pure
function of the document, independent of the archived asset paths — and
every original attribute value (every `href`/`src` included) appears
verbatim among the serialization tokens, so no reference is rewritten to a
local `/static` path. -/
theorem stored_html_prettified_unrewritten (fetch : Fetch)
    (parse : String → Doc) (st : Store) (fs : FS) (url content : String)
    (hfetch : fetch url = .ok content) (hdup : hasUrl st url = false) :
    ∃ oid r,
      ((scrape fetch parse st fs url).store.recs).getLast? = some (oid, r) ∧
      r.html = prettify (parse content) ∧
      prettify (parse content) = String.join (prettifyTokens (parse content)) ∧
      (∀ t ∈ parse content, ∀ a ∈ t.attrs,
        a.2 ∈ prettifyTokens (parse content)) := by
  rw [scrape_insert_eq fetch parse st fs url content hfetch hdup]
  exact ⟨mintId st.nextId, _, List.getLast?_concat _, rfl, rfl,
    fun t ht a ha => attrValue_mem_prettifyTokens _ t ht a ha⟩

/-- Witness for C7 on the fixture page. -/
theorem stored_html_prettified_unrewritten_witness :
    hasUrl stEmpty "http://x.test/dir/page.html" = false ∧
    (∃ oid r,
      ((scrape fetchW parseW stEmpty []
          "http://x.test/dir/page.html").store.recs).getLast? = some (oid, r) ∧
      r.html = prettify (parseW "PAGE") ∧
      prettify (parseW "PAGE") = String.join (prettifyTokens (parseW "PAGE")) ∧
      (∀ t ∈ parseW "PAGE", ∀ a ∈ t.attrs,
        a.2 ∈ prettifyTokens (parseW "PAGE"))) :=
  ⟨by decide,
   stored_html_prettified_unrewritten fetchW parseW stEmpty []
     "http://x.test/dir/page.html" "PAGE" (by decide) (by decide)⟩

/-- C9: a successful scrape redirects to `/render/{id}` (`app.py` line
114), but the render route is registered at the fixed path `/render` and
takes its identifier from the `template_id` query parameter; no path of the
form `/render/{id}` matches that route. -/
theorem scrape_redirect_not_accepted_by_render (fetch : Fetch)
    (parse : String → Doc) (st : Store) (fs : FS) (url content : String)
    (hfetch : fetch url = .ok content) (hdup : hasUrl st url = false) :
    (scrape fetch parse st fs url).resp =
      .redirect ("/render/" ++ mintId st.nextId) 303 ∧
    (∀ s : String, renderRouteMatches ("/render/" ++ s) = false) ∧
    renderQueryParam = "template_id" := by
  rw [scrape_insert_eq fetch parse st fs url content hfetch hdup]
  exact ⟨rfl, redirect_not_render_path, rfl⟩

/-- Witness for C9 on the fixture page. -/
theorem scrape_redirect_not_accepted_by_render_witness :
    (scrape fetchW parseW stEmpty [] "http://x.test/dir/page.html").resp =
      .redirect ("/render/" ++ mintId 0) 303 ∧
    renderRouteMatches ("/render/" ++ mintId 0) = false :=
  ⟨(scrape_redirect_not_accepted_by_render fetchW parseW stEmpty []
      "http://x.test/dir/page.html" "PAGE" (by decide) (by decide)).1,
   (scrape_redirect_not_accepted_by_render fetchW parseW stEmpty []
      "http://x.test/dir/page.html" "PAGE" (by decide) (by decide)).2.1
      (mintId 0)⟩

/-- C10: on a duplicate URL whose page fetch succeeds, the asset loops run
to completion first: the rejection is raised only afterwards (`app.py`
line 102 follows lines 68-99), the store is unchanged, and the final
filesystem still contains every write of every fetchable asset — the
rejection is not atomic with respect to the filesystem. -/
theorem duplicate_rejection_after_asset_writes (fetch : Fetch)
    (parse : String → Doc) (st : Store) (fs : FS) (url content : String)
    (hfetch : fetch url = .ok content) (hdup : hasUrl st url = true) :
    (scrape fetch parse st fs url).resp = .failure .duplicateUrl ∧
    (scrape fetch parse st fs url).store = st ∧
    (scrape fetch parse st fs url).fs =
      fs ++ (cssLoop fetch url 0 (stylesheetLinks (parse content))).2
         ++ (jsLoop fetch url 0 (scriptTags (parse content))).2 ∧
    (∀ p ∈ cssPairs fetch url (parse content),
      (cssLocalPath p.1, p.2) ∈ (scrape fetch parse st fs url).fs) ∧
    (∀ p ∈ jsPairs fetch url (parse content),
      (jsLocalPath p.1, p.2) ∈ (scrape fetch parse st fs url).fs) := by
  have hcss := cssLoop_spec fetch url 0 (stylesheetLinks (parse content))
  have hjs := jsLoop_spec fetch url 0 (scriptTags (parse content))
  rw [scrape_dup_eq fetch parse st fs url content hfetch hdup]
  refine ⟨rfl, rfl, rfl, ?_, ?_⟩
  · intro p hp
    rw [hcss]
    exact List.mem_append_left _ (List.mem_append_right _
      (List.mem_map_of_mem _ hp))
  · intro p hp
    rw [hjs]
    exact List.mem_append_right _ (List.mem_map_of_mem _ hp)

/-- Witness for C10: scraping the already-stored fixture URL is rejected,
yet the fetchable stylesheet and script files were written. -/
theorem duplicate_rejection_after_asset_writes_witness :
    (scrape fetchW parseW stDup [] "http://x.test/dir/page.html").resp =
      .failure .duplicateUrl ∧
    (scrape fetchW parseW stDup [] "http://x.test/dir/page.html").store =
      stDup ∧
    (∀ p ∈ cssPairs fetchW "http://x.test/dir/page.html" (parseW "PAGE"),
      (cssLocalPath p.1, p.2) ∈
        (scrape fetchW parseW stDup [] "http://x.test/dir/page.html").fs) ∧
    ("static/css/style_0.css", "CSSA") ∈
      (scrape fetchW parseW stDup [] "http://x.test/dir/page.html").fs ∧
    ("static/js/script_0.js", "JSBODY") ∈
      (scrape fetchW parseW stDup [] "http://x.test/dir/page.html").fs := by
  have h := duplicate_rejection_after_asset_writes fetchW parseW stDup []
    "http://x.test/dir/page.html" "PAGE" (by decide) (by decide)
  exact ⟨h.1, h.2.1, h.2.2.2.1, by decide, by decide⟩

end WebScraper
